import Mathlib

/-!
Shallow embedding of the go-launcher supervisor (package `launcher`,
the `Goroutine`-interface variant with the `shuttingDown` flag, a
leveled logger and `signalName`).

Modelling conventions:
- Go `error` values are `Option String` (`none` = nil).
- `time.Duration` is an `Int` counting nanoseconds, as in Go;
  `time.Second = 10^9`.
- A registered unit (`Goroutine` interface value) is modelled by its
  identifier together with the outcomes its `Run` and `Shutdown`
  operations eventually produce.
- The concurrent parts (`Run`'s wait-group barrier, `stopGoroutines`'s
  fire-and-forget shutdown tasks with the deferred `cancel()`) are
  modelled by explicit label-driven step machines: a schedule is a list
  of labels, and `runExec` / `stopExecRun` execute it, so reachability
  is executable on concrete schedules.
-/

namespace GoLauncher

/-- Go error-or-nil: `none` models a nil error. -/
abbrev GoError := Option String

/-- A registered unit: the `Goroutine` interface value, modelled by its id
and the outcomes of its blocking `Run()` and its `Shutdown(ctx)`. -/
structure Goroutine where
  id : String
  runResult : GoError
  shutdownResult : GoError
deriving DecidableEq

/-- Logger severity levels of the logkit collaborator used by the code
(`Infof`, `Errorf`, `Fatalf`). -/
inductive LogLevel
  | info
  | error
  | fatal
deriving DecidableEq

/-- One emitted log line: a severity and the formatted message. -/
structure LogEvent where
  level : LogLevel
  msg : String
deriving DecidableEq

/-- The `Launcher` struct: `ch` (a `chan bool` that is only ever created),
the struct-level `waitGroup` counter, the ordered `Goroutines` slice, the
`shutdownTimeout` duration, and the `shuttingDown` flag.  The `ctx` field
is `context.Background()` (no deadline) and the `log` field is the
injected logger; both are left implicit in the model. -/
structure Launcher where
  chMessages : List Bool
  waitGroupCount : Nat
  Goroutines : List Goroutine
  shutdownTimeout : Int
  shuttingDown : Bool
deriving DecidableEq

/-- The error `Run` returns when the goroutines list is empty
(`errors.New("goroutines list is empty")`). -/
def ErrGoroutinesListEmpty : String := "goroutines list is empty"

/-- Constructor `New()`: empty channel, zero wait-group counter, empty
slice, `shutdownTimeout` 60, flag unset. -/
def New : Launcher :=
  { chMessages := []
    waitGroupCount := 0
    Goroutines := []
    shutdownTimeout := 60
    shuttingDown := false }

/-- Method `Add`: appends to `Goroutines` and increments the struct-level
wait-group counter (`srv.waitGroup.Add(1)`). -/
def Add (srv : Launcher) (g : Goroutine) : Launcher :=
  { srv with
    Goroutines := srv.Goroutines ++ [g]
    waitGroupCount := srv.waitGroupCount + 1 }

/-- Method `SetShutdownTimeout`: stores the raw duration value. -/
def SetShutdownTimeout (srv : Launcher) (d : Int) : Launcher :=
  { srv with shutdownTimeout := d }

/-- One nanosecond-count of `time.Second`. -/
def timeSecond : Int := 1000000000

/-- One nanosecond-count of `time.Minute` (`60 * time.Second`). -/
def timeMinute : Int := 60 * timeSecond

/-- Two's-complement wrap of Go's 64-bit signed integer arithmetic: the
int64 value congruent to `x` modulo `2^64` lying in `[-2^63, 2^63)`.
`time.Duration` is an int64, so duration products wrap through this. -/
def wrap64 (x : Int) : Int := (x + 2 ^ 63) % 2 ^ 64 - 2 ^ 63

/-- The deadline `context.WithTimeout(srv.ctx, srv.shutdownTimeout*time.Second)`
computes, in absolute nanoseconds: now plus the stored duration value
multiplied by `time.Second`, where the product is computed in Go's
64-bit `time.Duration` and therefore wraps on overflow. -/
def stopDeadline (now timeout : Int) : Int := now + wrap64 (timeout * timeSecond)

/-- Spawn order of `startGoroutines`: the loop
`for i := 0; i <= len(srv.Goroutines)-1; i++` spawns the task for
`srv.Goroutines[i]`, so the dispatch sequence visits indices `0,...,n-1`. -/
def startSpawnOrder (gs : List Goroutine) : List Goroutine :=
  (List.range gs.length).filterMap (fun i => gs[i]?)

/-- Spawn order of `stopGoroutines`: the loop
`for i := len(srv.Goroutines)-1; i >= 0; i--` spawns the task for
`srv.Goroutines[i]`, so the dispatch sequence visits indices `n-1,...,0`. -/
def stopSpawnOrder (gs : List Goroutine) : List Goroutine :=
  ((List.range gs.length).reverse).filterMap (fun i => gs[i]?)

/-- A dispatched shutdown call: the unit whose `Shutdown(ctx)` the spawned
task will invoke, and the deadline of the context it was handed. -/
structure DispatchedCall where
  unit : Goroutine
  ctxDeadline : Int
deriving DecidableEq

/-- The shutdown calls `stopGoroutines` dispatches: one fire-and-forget
task per registered unit, in reverse insertion order, all sharing the
single context whose deadline is `now + shutdownTimeout*time.Second`. -/
def stopGoroutinesDispatch (now : Int) (srv : Launcher) : List DispatchedCall :=
  (stopSpawnOrder srv.Goroutines).map
    (fun g => { unit := g, ctxDeadline := stopDeadline now srv.shutdownTimeout })

/-- Method `Stop()`: its body is exactly `srv.stopGoroutines()` - it does
not touch any field of the receiver, it only dispatches the shutdown
calls. -/
def Stop (now : Int) (srv : Launcher) : Launcher × List DispatchedCall :=
  (srv, stopGoroutinesDispatch now srv)

/-- The Linux signal numbers the code mentions. -/
def SIGHUP : Int := 1

/-- Signal number of SIGINT. -/
def SIGINT : Int := 2

/-- Signal number of SIGQUIT. -/
def SIGQUIT : Int := 3

/-- Signal number of SIGKILL. -/
def SIGKILL : Int := 9

/-- Signal number of SIGUSR1. -/
def SIGUSR1 : Int := 10

/-- Signal number of SIGUSR2. -/
def SIGUSR2 : Int := 12

/-- Signal number of SIGTERM. -/
def SIGTERM : Int := 15

/-- Function `signalName`: the `switch sig` over the seven named signals,
with `default: return "UNKNOWN"`. -/
def signalName (sig : Int) : String :=
  if sig = SIGINT then "SIGINT"
  else if sig = SIGTERM then "SIGTERM"
  else if sig = SIGKILL then "SIGKILL"
  else if sig = SIGQUIT then "SIGQUIT"
  else if sig = SIGHUP then "SIGHUP"
  else if sig = SIGUSR1 then "SIGUSR1"
  else if sig = SIGUSR2 then "SIGUSR2"
  else "UNKNOWN"

/-- The body the signal-listener goroutine runs on any received signal:
the `switch sig` has only a `default` branch, which sets
`srv.shuttingDown = true`, logs the signal at info severity, and calls
`srv.stopGoroutines()`.  Returns the updated receiver, the log line, and
the dispatched shutdown calls. -/
def signalListenerAction (sig : Int) (now : Int) (srv : Launcher) :
    Launcher × LogEvent × List DispatchedCall :=
  let srv2 := { srv with shuttingDown := true }
  (srv2,
   { level := LogLevel.info
     msg := "The main process got an " ++ signalName sig ++ " (" ++ toString sig
            ++ ") signal, stopping goroutines" },
   stopGoroutinesDispatch now srv2)

/-- Events a spawned run task emits: log lines and the single
`wg.Done()`. -/
inductive TaskEvent
  | log (e : LogEvent)
  | done
deriving DecidableEq

/-- The closure `startGoroutines` spawns for one unit: logs the start
line, invokes the blocking `g.Run()`; on a non-nil error it logs at
error severity when `srv.shuttingDown` was set and at fatal severity
otherwise, on a nil return it logs the clean-termination line; in every
case it ends with exactly one `wg.Done()`.  `shuttingDown` is the value
of the flag observed when `g.Run()` returns. -/
def runTaskBody (shuttingDown : Bool) (g : Goroutine) : List TaskEvent :=
  [TaskEvent.log { level := LogLevel.info, msg := "Start goroutine with id " ++ g.id }]
  ++ (match g.runResult with
      | some err =>
        if shuttingDown then
          [TaskEvent.log { level := LogLevel.error
                           msg := "Goroutine with id " ++ g.id ++ " has been terminated, " ++ err }]
        else
          [TaskEvent.log { level := LogLevel.fatal
                           msg := "Failed to start goroutine " ++ g.id ++ ", " ++ err }]
      | none =>
        [TaskEvent.log { level := LogLevel.info
                         msg := "Goroutine with id " ++ g.id ++ " has been terminated without an error" }])
  ++ [TaskEvent.done]

/-- Number of `wg.Done()` signals in a task event list. -/
def doneCount (evs : List TaskEvent) : Nat :=
  (evs.filter (fun e => match e with | TaskEvent.done => true | TaskEvent.log _ => false)).length

/-- Number of log lines of a given severity in a task event list. -/
def levelCount (lv : LogLevel) (evs : List TaskEvent) : Nat :=
  (evs.filter (fun e => match e with
    | TaskEvent.log le => decide (le.level = lv)
    | TaskEvent.done => false)).length

/-- State of the concurrent phase of `Run`: the registered units, the
indices of run tasks that have not yet called `wg.Done()`, the local
wait-group counter `wg` (created by `Run` itself with
`wg.Add(len(srv.Goroutines))`), and `Run`'s return value once `wg.Wait()`
has unblocked (`some v` means `Run` returned `v`). -/
structure RunState where
  units : List Goroutine
  remaining : List Nat
  wgCounter : Nat
  result : Option GoError
deriving DecidableEq

/-- The state right after `Run` has spawned the per-unit tasks and called
`wg.Add(n)`: every task is outstanding and `Run` has not returned. -/
def runInitState (gs : List Goroutine) : RunState :=
  { units := gs
    remaining := List.range gs.length
    wgCounter := gs.length
    result := none }

/-- Scheduler labels for the concurrent phase of `Run`: either the run
task of unit `i` finishes (its body ends in `wg.Done()`), or the blocked
`wg.Wait()` observes a zero counter and `Run` executes `return nil`. -/
inductive RunLabel
  | taskDone (i : Nat)
  | wgReturn
deriving DecidableEq

/-- One scheduler step of the concurrent phase of `Run`.  `taskDone i` is
enabled while task `i` is outstanding and decrements the wait-group
counter exactly once; `wgReturn` is enabled exactly when the counter is
zero and `Run` has not yet returned, and records the `return nil`. -/
def runStepFn (s : RunState) : RunLabel → Option RunState
  | RunLabel.taskDone i =>
    if i ∈ s.remaining then
      some { s with remaining := s.remaining.erase i, wgCounter := s.wgCounter - 1 }
    else none
  | RunLabel.wgReturn =>
    if s.wgCounter = 0 ∧ s.result = none then
      some { s with result := some none }
    else none

/-- Runs a schedule (list of labels) from a state; `none` when some label
is not enabled. -/
def runExec (s : RunState) : List RunLabel → Option RunState
  | [] => some s
  | l :: ls =>
    match runStepFn s l with
    | none => none
    | some s2 => runExec s2 ls

/-- The synchronous prefix of `Run`: the guard
`if len(srv.Goroutines) <= 0 { return ErrGoroutinesListEmpty }` returns
the error before subscribing to signals or spawning anything; otherwise
`Run` subscribes, spawns the listener and the per-unit tasks, and enters
the concurrent phase in `runInitState`. -/
def RunSync (srv : Launcher) : Except String RunState :=
  if srv.Goroutines.length ≤ 0 then Except.error ErrGoroutinesListEmpty
  else Except.ok (runInitState srv.Goroutines)

/-- The run tasks `Run` spawns: none at all on the empty-list error path,
one per unit in start order otherwise. -/
def runSpawnedTasks (srv : Launcher) : List Goroutine :=
  match RunSync srv with
  | Except.error _ => []
  | Except.ok st => startSpawnOrder st.units

/-- Observable events of one execution of `stopGoroutines`: the parent
spawns the task for unit index `i`; the deferred `cancel()` fires when
`stopGoroutines` returns; a spawned task invokes `g.Shutdown(ctx)`,
recording the context deadline it was handed and whether `cancel()` had
already fired at that moment. -/
inductive StopEvent
  | spawn (i : Nat)
  | cancel
  | invoke (i : Nat) (ctxDeadline : Int) (ctxCancelled : Bool)
deriving DecidableEq

/-- State of one execution of `stopGoroutines` interleaved with the
shutdown tasks it spawns: the indices the parent loop has yet to spawn
(in loop order `n-1,...,0`), whether the parent has returned (firing the
deferred `cancel()`), whether the shared context is cancelled, the
spawned tasks that have not yet invoked `Shutdown`, and the event log. -/
structure StopExec where
  toSpawn : List Nat
  parentReturned : Bool
  cancelled : Bool
  pending : List Nat
  events : List StopEvent
deriving DecidableEq

/-- Initial state of `stopGoroutines` over `n` registered units: the
context has just been created (not cancelled), the loop will spawn
indices `n-1,...,0`, nothing is spawned yet. -/
def stopInit (n : Nat) : StopExec :=
  { toSpawn := (List.range n).reverse
    parentReturned := false
    cancelled := false
    pending := []
    events := [] }

/-- Scheduler labels for `stopGoroutines`: the parent executes its next
`go` statement; the parent returns (running the deferred `cancel()`); a
spawned task reaches its `g.Shutdown(ctx)` call. -/
inductive StopLabel
  | spawnStep
  | returnStep
  | invokeStep (i : Nat)
deriving DecidableEq

/-- One scheduler step of `stopGoroutines`.  The parent spawns in reverse
insertion order and only returns - firing `cancel()` - after its loop is
done; `stopGoroutines` never waits for the tasks it spawned, so
`returnStep` is enabled as soon as the loop ends, regardless of
`pending`.  A task invoking `Shutdown` records the shared deadline and
the context cancellation status at that moment. -/
def stopStepFn (now timeout : Int) (s : StopExec) : StopLabel → Option StopExec
  | StopLabel.spawnStep =>
    match s.toSpawn with
    | [] => none
    | i :: rest =>
      some { s with
             toSpawn := rest
             pending := s.pending ++ [i]
             events := s.events ++ [StopEvent.spawn i] }
  | StopLabel.returnStep =>
    if s.toSpawn = [] ∧ s.parentReturned = false then
      some { s with
             parentReturned := true
             cancelled := true
             events := s.events ++ [StopEvent.cancel] }
    else none
  | StopLabel.invokeStep i =>
    if i ∈ s.pending then
      some { s with
             pending := s.pending.erase i
             events := s.events ++ [StopEvent.invoke i (stopDeadline now timeout) s.cancelled] }
    else none

/-- Runs a schedule of `stopGoroutines` steps; `none` when some label is
not enabled. -/
def stopExecRun (now timeout : Int) (s : StopExec) : List StopLabel → Option StopExec
  | [] => some s
  | l :: ls =>
    match stopStepFn now timeout s l with
    | none => none
    | some s2 => stopExecRun now timeout s2 ls

/-- The launcher state stripped of the `ch` channel and the struct-level
`waitGroup` counter: the variant of the struct without the two fields
that `Run`, `Stop` and the stop path never read. -/
structure LauncherCore where
  Goroutines : List Goroutine
  shutdownTimeout : Int
  shuttingDown : Bool
deriving DecidableEq

/-- Erasure of the two behaviourally irrelevant fields. -/
def eraseFields (srv : Launcher) : LauncherCore :=
  { Goroutines := srv.Goroutines
    shutdownTimeout := srv.shutdownTimeout
    shuttingDown := srv.shuttingDown }

/-- Variant constructor without the two fields. -/
def NewCore : LauncherCore :=
  { Goroutines := [], shutdownTimeout := 60, shuttingDown := false }

/-- Variant `Add` without the wait-group increment. -/
def AddCore (srv : LauncherCore) (g : Goroutine) : LauncherCore :=
  { srv with Goroutines := srv.Goroutines ++ [g] }

/-- Variant `SetShutdownTimeout`. -/
def SetShutdownTimeoutCore (srv : LauncherCore) (d : Int) : LauncherCore :=
  { srv with shutdownTimeout := d }

/-- Variant stop dispatch over the stripped state. -/
def stopGoroutinesDispatchCore (now : Int) (srv : LauncherCore) : List DispatchedCall :=
  (stopSpawnOrder srv.Goroutines).map
    (fun g => { unit := g, ctxDeadline := stopDeadline now srv.shutdownTimeout })

/-- Variant `Stop` over the stripped state. -/
def StopCore (now : Int) (srv : LauncherCore) : LauncherCore × List DispatchedCall :=
  (srv, stopGoroutinesDispatchCore now srv)

/-- Variant signal-listener action over the stripped state. -/
def signalListenerActionCore (sig : Int) (now : Int) (srv : LauncherCore) :
    LauncherCore × LogEvent × List DispatchedCall :=
  let srv2 := { srv with shuttingDown := true }
  (srv2,
   { level := LogLevel.info
     msg := "The main process got an " ++ signalName sig ++ " (" ++ toString sig
            ++ ") signal, stopping goroutines" },
   stopGoroutinesDispatchCore now srv2)

/-- Variant synchronous prefix of `Run` over the stripped state. -/
def RunSyncCore (srv : LauncherCore) : Except String RunState :=
  if srv.Goroutines.length ≤ 0 then Except.error ErrGoroutinesListEmpty
  else Except.ok (runInitState srv.Goroutines)

/-- Concrete unit used by witnesses: run and shutdown both return nil. -/
def gA : Goroutine := { id := "A", runResult := none, shutdownResult := none }

/-- Concrete unit used by witnesses: run and shutdown both return nil. -/
def gB : Goroutine := { id := "B", runResult := none, shutdownResult := none }

/-- Concrete unit whose run operation fails. -/
def gBoom : Goroutine := { id := "boom", runResult := some "listen failed", shutdownResult := none }

/-- Concrete launcher with the single unit `gA` registered. -/
def srvA : Launcher := Add New gA

/-- Concrete launcher with `gA` then `gB` registered. -/
def srvAB : Launcher := Add (Add New gA) gB

/-- Final state of a completed 2-unit run phase: no outstanding task,
counter zero, `Run` returned nil. -/
def sDoneAB : RunState :=
  { units := [gA, gB], remaining := [], wgCounter := 0, result := some none }

/-- Final state of a completed 1-unit run phase over `gA`. -/
def sDoneA : RunState :=
  { units := [gA], remaining := [], wgCounter := 0, result := some none }

/-- Final state of a completed 1-unit run phase over `gBoom`. -/
def sDoneBoom : RunState :=
  { units := [gBoom], remaining := [], wgCounter := 0, result := some none }

/-- Invariant of the concurrent phase of `Run`: the local wait-group
counter equals the number of outstanding run tasks, and once `Run` has
returned there is no outstanding task and the returned value is nil. -/
def runInv (s : RunState) : Prop :=
  s.wgCounter = s.remaining.length ∧ ∀ v, s.result = some v → s.remaining = [] ∧ v = none

theorem startSpawnOrder_eq (gs : List Goroutine) : startSpawnOrder gs = gs := by
  induction gs with
  | nil => rfl
  | cons a tl ih =>
    unfold startSpawnOrder at *
    simp only [List.length_cons, List.range_succ_eq_map, List.filterMap_cons,
      List.getElem?_cons_zero, List.filterMap_map]
    have hfun : ((fun i => (a :: tl)[i]?) ∘ Nat.succ) = (fun i => tl[i]?) := by
      funext i
      simp
    rw [hfun, ih]

theorem stopSpawnOrder_eq (gs : List Goroutine) : stopSpawnOrder gs = gs.reverse := by
  unfold stopSpawnOrder
  rw [List.filterMap_reverse]
  rw [show (List.range gs.length).filterMap (fun i => gs[i]?) = startSpawnOrder gs from rfl]
  rw [startSpawnOrder_eq]

theorem runInv_init (gs : List Goroutine) : runInv (runInitState gs) := by
  constructor
  · simp [runInitState]
  · intro v hv
    simp [runInitState] at hv

theorem runStepFn_preserves {s s2 : RunState} {l : RunLabel}
    (hs : runInv s) (h : runStepFn s l = some s2) : runInv s2 := by
  obtain ⟨h1, h2⟩ := hs
  cases l with
  | taskDone i =>
    by_cases hmem : i ∈ s.remaining
    · simp only [runStepFn, if_pos hmem, Option.some.injEq] at h
      subst h
      refine ⟨?_, ?_⟩
      · simp only [List.length_erase_of_mem hmem, h1]
      · intro v hv
        exfalso
        have hnil := (h2 v hv).1
        rw [hnil] at hmem
        exact List.not_mem_nil i hmem
    · simp only [runStepFn, if_neg hmem] at h
      cases h
  | wgReturn =>
    by_cases hc : s.wgCounter = 0 ∧ s.result = none
    · simp only [runStepFn, if_pos hc, Option.some.injEq] at h
      subst h
      have hrem : s.remaining = [] := by
        have hlen : s.remaining.length = 0 := by omega
        exact List.eq_nil_of_length_eq_zero hlen
      refine ⟨by simpa using h1, ?_⟩
      intro v hv
      simp only [Option.some.injEq] at hv
      exact ⟨hrem, hv.symm⟩
    · simp only [runStepFn, if_neg hc] at h
      cases h

theorem runExec_preserves {s s2 : RunState} {ls : List RunLabel}
    (hs : runInv s) (h : runExec s ls = some s2) : runInv s2 := by
  induction ls generalizing s with
  | nil =>
    simp only [runExec, Option.some.injEq] at h
    subst h
    exact hs
  | cons l ls ih =>
    simp only [runExec] at h
    cases hstep : runStepFn s l with
    | none =>
      rw [hstep] at h
      cases h
    | some smid =>
      rw [hstep] at h
      exact ih (runStepFn_preserves hs hstep) h

/-- C1: for every non-empty registered-unit list and every schedule of the
concurrent phase, if `Run` has returned then no run task is outstanding
(the wait-group counter is zero and every task has completed) and the
returned value is nil; moreover every unit task signals `wg.Done()`
exactly once, whatever its run outcome and whatever the shutting-down
flag. -/
theorem run_waits_for_all_completions (gs : List Goroutine) (ls : List RunLabel)
    (s : RunState) (v : GoError) (hne : gs ≠ [])
    (hexec : runExec (runInitState gs) ls = some s) (hret : s.result = some v) :
    s.remaining = [] ∧ s.wgCounter = 0 ∧ v = none ∧
    (∀ flag g, doneCount (runTaskBody flag g) = 1) ∧
    ∀ s2 : RunState, s2.wgCounter = 0 → s2.result = none →
      runStepFn s2 RunLabel.wgReturn = some { s2 with result := some none } := by
  have hinv := runExec_preserves (runInv_init gs) hexec
  obtain ⟨h1, h2⟩ := hinv
  obtain ⟨hrem, hv⟩ := h2 v hret
  refine ⟨hrem, ?_, hv, ?_, ?_⟩
  · rw [h1, hrem]
    rfl
  · intro flag g
    cases hr : g.runResult <;> cases flag <;> simp [doneCount, runTaskBody, hr]
  · intro s2 hc hr
    simp [runStepFn, hc, hr]

/-- Witness for C1: one unit, the schedule where its task completes and
then `wg.Wait()` unblocks. -/
theorem run_waits_for_all_completions_witness :
    ([gA] ≠ ([] : List Goroutine)) ∧
    runExec (runInitState [gA]) [RunLabel.taskDone 0, RunLabel.wgReturn] = some sDoneA ∧
    sDoneA.result = some none ∧
    (sDoneA.remaining = [] ∧ sDoneA.wgCounter = 0 ∧ (none : GoError) = none ∧
      (∀ flag g, doneCount (runTaskBody flag g) = 1) ∧
      ∀ s2 : RunState, s2.wgCounter = 0 → s2.result = none →
        runStepFn s2 RunLabel.wgReturn = some { s2 with result := some none }) :=
  ⟨by decide, by decide, by decide,
   run_waits_for_all_completions [gA] [RunLabel.taskDone 0, RunLabel.wgReturn] sDoneA none
     (by decide) (by decide) (by decide)⟩

/-- C2: `Run` returns an error exactly when the registered-unit list is
empty; in that case the error is `ErrGoroutinesListEmpty`, it is returned
synchronously by the guard before anything is spawned (`RunSync` is a
total function, so no panic), and no run task is dispatched; for every
non-empty list, every completed schedule of the concurrent phase ends
with `Run` returning nil. -/
theorem run_error_iff_no_units (srv : Launcher) (gs : List Goroutine)
    (ls : List RunLabel) (s : RunState) (v : GoError)
    (hne : gs ≠ []) (hexec : runExec (runInitState gs) ls = some s)
    (hret : s.result = some v) :
    ((∃ e, RunSync srv = Except.error e) ↔ srv.Goroutines = []) ∧
    (srv.Goroutines = [] →
      RunSync srv = Except.error ErrGoroutinesListEmpty ∧ runSpawnedTasks srv = []) ∧
    v = none := by
  have hinv := runExec_preserves (runInv_init gs) hexec
  have hv := (hinv.2 v hret).2
  refine ⟨⟨?_, ?_⟩, ?_, hv⟩
  · rintro ⟨e, he⟩
    by_cases hl : srv.Goroutines.length ≤ 0
    · exact List.eq_nil_of_length_eq_zero (by omega)
    · simp only [RunSync, if_neg hl] at he
      cases he
  · intro hnil
    exact ⟨ErrGoroutinesListEmpty, by simp [RunSync, hnil]⟩
  · intro hnil
    constructor
    · simp [RunSync, hnil]
    · simp [runSpawnedTasks, RunSync, hnil]

/-- Witness for C2: the empty launcher `New` on the error side, a
completed one-unit schedule on the nil side. -/
theorem run_error_iff_no_units_witness :
    ([gB] ≠ ([] : List Goroutine)) ∧
    runExec (runInitState [gB])
      [RunLabel.taskDone 0, RunLabel.wgReturn] = some { sDoneA with units := [gB] } ∧
    ({ sDoneA with units := [gB] } : RunState).result = some none ∧
    (((∃ e, RunSync New = Except.error e) ↔ New.Goroutines = []) ∧
      (New.Goroutines = [] →
        RunSync New = Except.error ErrGoroutinesListEmpty ∧ runSpawnedTasks New = []) ∧
      (none : GoError) = none) :=
  ⟨by decide, by decide, by decide,
   run_error_iff_no_units New [gB] [RunLabel.taskDone 0, RunLabel.wgReturn]
     { sDoneA with units := [gB] } none (by decide) (by decide) (by decide)⟩

/-- C3 counterexample: the claim says `Stop()` performs exactly the
signal-listener's action, including setting the shutting-down flag.  On
the concrete launcher `srvA` (one unit, flag unset), `Stop` leaves the
flag unset while the listener action sets it: the body of `Stop` is only
`srv.stopGoroutines()` and never writes `srv.shuttingDown`. -/
theorem stop_not_listener_action_cx :
    (Stop 0 srvA).1.shuttingDown = false ∧
    (signalListenerAction SIGINT 0 srvA).1.shuttingDown = true :=
  ⟨rfl, rfl⟩

/-- C3 (amended): for every launcher, signal and trigger time, `Stop()`
dispatches exactly the shutdown calls the signal listener dispatches -
same reverse order, same shared deadline - but unlike the listener it
leaves the receiver unchanged: it does not set the shutting-down flag
(the listener does). -/
theorem stop_matches_listener_dispatch_only (now : Int) (srv : Launcher) (sig : Int) :
    (Stop now srv).2 = (signalListenerAction sig now srv).2.2 ∧
    (Stop now srv).1 = srv ∧
    (signalListenerAction sig now srv).1 = { srv with shuttingDown := true } :=
  ⟨rfl, rfl, rfl⟩

/-- C5: the stop path dispatches in reverse insertion order: the dispatch
list is the reversed unit list (all with the shared deadline), and for
units A at insertion index `i` and B at a later index `j`, B occupies a
strictly earlier dispatch position than A. -/
theorem stop_dispatch_reverse_order (now : Int) (srv : Launcher) (i j : Nat)
    (hij : i < j) (hj : j < srv.Goroutines.length) :
    stopGoroutinesDispatch now srv =
      (srv.Goroutines.reverse).map
        (fun g => { unit := g, ctxDeadline := stopDeadline now srv.shutdownTimeout }) ∧
    srv.Goroutines.length - 1 - j < srv.Goroutines.length - 1 - i ∧
    (stopGoroutinesDispatch now srv)[srv.Goroutines.length - 1 - j]? =
      (srv.Goroutines[j]?).map
        (fun g => { unit := g, ctxDeadline := stopDeadline now srv.shutdownTimeout }) ∧
    (stopGoroutinesDispatch now srv)[srv.Goroutines.length - 1 - i]? =
      (srv.Goroutines[i]?).map
        (fun g => { unit := g, ctxDeadline := stopDeadline now srv.shutdownTimeout }) := by
  have hdisp : stopGoroutinesDispatch now srv =
      (srv.Goroutines.reverse).map
        (fun g => { unit := g, ctxDeadline := stopDeadline now srv.shutdownTimeout }) := by
    unfold stopGoroutinesDispatch
    rw [stopSpawnOrder_eq]
  refine ⟨hdisp, by omega, ?_, ?_⟩
  · rw [hdisp, List.getElem?_map,
      List.getElem?_reverse (by omega : srv.Goroutines.length - 1 - j < srv.Goroutines.length)]
    have : srv.Goroutines.length - 1 - (srv.Goroutines.length - 1 - j) = j := by omega
    rw [this]
  · rw [hdisp, List.getElem?_map,
      List.getElem?_reverse (by omega : srv.Goroutines.length - 1 - i < srv.Goroutines.length)]
    have : srv.Goroutines.length - 1 - (srv.Goroutines.length - 1 - i) = i := by omega
    rw [this]

/-- Witness for C5: the two-unit launcher `srvAB` with A at index 0 and B
at index 1. -/
theorem stop_dispatch_reverse_order_witness :
    (0 < 1 ∧ 1 < srvAB.Goroutines.length) ∧
    (stopGoroutinesDispatch 0 srvAB =
      (srvAB.Goroutines.reverse).map
        (fun g => { unit := g, ctxDeadline := stopDeadline 0 srvAB.shutdownTimeout }) ∧
    srvAB.Goroutines.length - 1 - 1 < srvAB.Goroutines.length - 1 - 0 ∧
    (stopGoroutinesDispatch 0 srvAB)[srvAB.Goroutines.length - 1 - 1]? =
      (srvAB.Goroutines[1]?).map
        (fun g => { unit := g, ctxDeadline := stopDeadline 0 srvAB.shutdownTimeout }) ∧
    (stopGoroutinesDispatch 0 srvAB)[srvAB.Goroutines.length - 1 - 0]? =
      (srvAB.Goroutines[0]?).map
        (fun g => { unit := g, ctxDeadline := stopDeadline 0 srvAB.shutdownTimeout })) :=
  ⟨⟨by decide, by decide⟩,
   stop_dispatch_reverse_order 0 srvAB 0 1 (by decide) (by decide)⟩

/-- C6: a failed run is logged at error severity exactly when the
shutting-down flag was set and at fatal severity exactly when it was
not; the task body still ends with its single `wg.Done()` in every case
(the fatal log is only a classification - the supervisor model has no
process-exit or sibling-abort step), and no per-unit error reaches
`Run`'s return value: every completed schedule returns nil. -/
theorem unit_run_error_severity (g : Goroutine) (flag : Bool) :
    levelCount LogLevel.error (runTaskBody flag g) =
      (if flag && g.runResult.isSome then 1 else 0) ∧
    levelCount LogLevel.fatal (runTaskBody flag g) =
      (if !flag && g.runResult.isSome then 1 else 0) ∧
    (runTaskBody flag g).getLast? = some TaskEvent.done ∧
    doneCount (runTaskBody flag g) = 1 ∧
    ∀ gs ls s v, runExec (runInitState gs) ls = some s → s.result = some v → v = none := by
  refine ⟨?_, ?_, ?_, ?_, ?_⟩
  · cases hr : g.runResult <;> cases flag <;> simp [levelCount, runTaskBody, hr]
  · cases hr : g.runResult <;> cases flag <;> simp [levelCount, runTaskBody, hr]
  · cases hr : g.runResult <;> cases flag <;> simp [runTaskBody, hr]
  · cases hr : g.runResult <;> cases flag <;> simp [doneCount, runTaskBody, hr]
  · intro gs ls s v hexec hret
    exact ((runExec_preserves (runInv_init gs) hexec).2 v hret).2

/-- Witness for C6: the failing unit `gBoom` outside shutdown, and a
completed one-unit schedule whose return value is nil. -/
theorem unit_run_error_severity_witness :
    runExec (runInitState [gBoom]) [RunLabel.taskDone 0, RunLabel.wgReturn] = some sDoneBoom ∧
    sDoneBoom.result = some none ∧
    (none : GoError) = none :=
  ⟨by decide, by decide,
   (unit_run_error_severity gBoom false).2.2.2.2 [gBoom]
     [RunLabel.taskDone 0, RunLabel.wgReturn] sDoneBoom none (by decide) (by decide)⟩

/-- C7: the start path dispatches one run task per unit in insertion
order (the spawn list is the unit list itself, `Add` appends at the
tail), and completion order is not fixed: the two-unit launcher admits
completed schedules with either task finishing first. -/
theorem start_dispatch_insertion_order (srv : Launcher) (g : Goroutine) :
    startSpawnOrder srv.Goroutines = srv.Goroutines ∧
    (startSpawnOrder srv.Goroutines).length = srv.Goroutines.length ∧
    (Add srv g).Goroutines = srv.Goroutines ++ [g] ∧
    runExec (runInitState [gA, gB])
      [RunLabel.taskDone 0, RunLabel.taskDone 1, RunLabel.wgReturn] = some sDoneAB ∧
    runExec (runInitState [gA, gB])
      [RunLabel.taskDone 1, RunLabel.taskDone 0, RunLabel.wgReturn] = some sDoneAB := by
  refine ⟨startSpawnOrder_eq _, by rw [startSpawnOrder_eq], rfl, by decide, by decide⟩

/-- C4, code evaluated at the failing schedule: `stopGoroutines` creates
one shared context with deadline `now + shutdownTimeout*time.Second`
(here `0 + 60*10^9`), spawns the shutdown task, and returns without
waiting - at which point its deferred `cancel()` fires.  The schedule
spawn-return-invoke is a complete execution of the one-unit stop path in
which the unit's `Shutdown` is invoked with the context already
cancelled, contradicting the claim that every shutdown invocation
receives a still-live deadline. -/
theorem stop_context_cancelled_before_invoke :
    stopExecRun 0 60 (stopInit 1)
      [StopLabel.spawnStep, StopLabel.returnStep, StopLabel.invokeStep 0] =
      some { toSpawn := []
             parentReturned := true
             cancelled := true
             pending := []
             events := [StopEvent.spawn 0, StopEvent.cancel,
                        StopEvent.invoke 0 (stopDeadline 0 60) true] } ∧
    stopDeadline 0 60 = 60000000000 := by
  constructor
  · decide
  · decide

/-- C8: the `ch` channel and the struct-level `waitGroup` counter are
write-only - `Add` only increments the counter and leaves the channel
untouched - and every observable operation factors through the state
with the two fields erased, so the launcher behaves identically to the
variant `LauncherCore` that lacks them; `Run` synchronizes only on the
fresh local wait group of the concurrent phase. -/
theorem unused_fields_refinement (srv : Launcher) (g : Goroutine) (d now sig : Int)
    (c : List Bool) (w : Nat) :
    eraseFields New = NewCore ∧
    eraseFields (Add srv g) = AddCore (eraseFields srv) g ∧
    (Add srv g).waitGroupCount = srv.waitGroupCount + 1 ∧
    (Add srv g).chMessages = srv.chMessages ∧
    eraseFields (SetShutdownTimeout srv d) = SetShutdownTimeoutCore (eraseFields srv) d ∧
    RunSync srv = RunSyncCore (eraseFields srv) ∧
    stopGoroutinesDispatch now srv = stopGoroutinesDispatchCore now (eraseFields srv) ∧
    (Stop now srv).2 = (StopCore now (eraseFields srv)).2 ∧
    eraseFields (Stop now srv).1 = (StopCore now (eraseFields srv)).1 ∧
    (signalListenerAction sig now srv).2 = (signalListenerActionCore sig now (eraseFields srv)).2 ∧
    eraseFields (signalListenerAction sig now srv).1 =
      (signalListenerActionCore sig now (eraseFields srv)).1 ∧
    RunSync { srv with chMessages := c, waitGroupCount := w } = RunSync srv ∧
    stopGoroutinesDispatch now { srv with chMessages := c, waitGroupCount := w } =
      stopGoroutinesDispatch now srv :=
  ⟨rfl, rfl, rfl, rfl, rfl, rfl, rfl, rfl, rfl, rfl, rfl, rfl, rfl⟩

theorem wrap64_eq_self {x : Int} (h1 : -(2 ^ 63) ≤ x) (h2 : x < 2 ^ 63) : wrap64 x = x := by
  unfold wrap64
  rw [Int.emod_eq_of_lt (by omega) (by omega)]
  omega

/-- C9 counterexample: the claim states that storing the real duration
`time.Minute` (6*10^10 ns) yields a deadline of now plus that duration
times 10^9 seconds, i.e. `now + 6*10^19` ns.  But the stop path computes
`srv.shutdownTimeout*time.Second` in Go's 64-bit `time.Duration`, and
`6*10^10 * 10^9 = 6*10^19` overflows int64, wrapping to
`4659767778871345152` ns: at `now = 0` the deadline is that wrapped
value, not `6*10^19`. -/
theorem timeout_minute_wraps_cx :
    stopDeadline 0 timeMinute = 4659767778871345152 ∧
    stopDeadline 0 timeMinute ≠ 0 + 60000000000 * 1000000000 := by
  constructor
  · decide
  · decide

/-- C9 (amended): the stored shutdown-timeout value is interpreted as a
count of seconds through int64 duration arithmetic: after
`SetShutdownTimeout d`, every dispatched shutdown call of a stop trigger
carries the deadline `now + wrap64(d * 10^9)` nanoseconds, which equals
`d` seconds whenever the product `d * 10^9` fits in int64; the default
value 60 stored by `New` yields 60 seconds, while storing the real
duration `time.Minute` (6*10^10 ns) overflows int64 and wraps to
`4659767778871345152` ns (about 147.6 years), not the one-minute
duration times 10^9 seconds. -/
theorem shutdown_timeout_in_seconds_wrapped (srv : Launcher) (d now : Int)
    (h1 : -(2 ^ 63) ≤ d * timeSecond) (h2 : d * timeSecond < 2 ^ 63) :
    (stopGoroutinesDispatch now (SetShutdownTimeout srv d)).map DispatchedCall.ctxDeadline =
      List.replicate srv.Goroutines.length (now + d * timeSecond) ∧
    timeSecond = 1000000000 ∧
    New.shutdownTimeout = 60 ∧
    stopDeadline now New.shutdownTimeout = now + 60 * 1000000000 ∧
    stopDeadline now timeMinute = now + 4659767778871345152 := by
  refine ⟨?_, rfl, rfl, ?_, ?_⟩
  · unfold stopGoroutinesDispatch SetShutdownTimeout
    rw [List.map_map]
    have hcomp : (DispatchedCall.ctxDeadline ∘
        fun g => ({ unit := g, ctxDeadline := stopDeadline now d } : DispatchedCall)) =
        fun _ => stopDeadline now d := rfl
    have hdl : stopDeadline now d = now + d * timeSecond := by
      unfold stopDeadline
      rw [wrap64_eq_self h1 h2]
    rw [hcomp, hdl, List.map_const', stopSpawnOrder_eq, List.length_reverse]
  · have hw : wrap64 (New.shutdownTimeout * timeSecond) = 60 * 1000000000 := by decide
    unfold stopDeadline
    rw [hw]
  · have hw : wrap64 (timeMinute * timeSecond) = 4659767778871345152 := by decide
    unfold stopDeadline
    rw [hw]

/-- Witness for C9 (amended): the in-range stored value 60 on the
one-unit launcher `srvA`. -/
theorem shutdown_timeout_in_seconds_wrapped_witness :
    (-(2 ^ 63) ≤ (60 : Int) * timeSecond) ∧ ((60 : Int) * timeSecond < 2 ^ 63) ∧
    ((stopGoroutinesDispatch 0 (SetShutdownTimeout srvA 60)).map DispatchedCall.ctxDeadline =
        List.replicate srvA.Goroutines.length (0 + 60 * timeSecond) ∧
      timeSecond = 1000000000 ∧
      New.shutdownTimeout = 60 ∧
      stopDeadline 0 New.shutdownTimeout = 0 + 60 * 1000000000 ∧
      stopDeadline 0 timeMinute = 0 + 4659767778871345152) :=
  ⟨by decide, by decide,
   shutdown_timeout_in_seconds_wrapped srvA 60 0 (by decide) (by decide)⟩

/-- C10: `signalName` is total: it maps each of the seven named signal
numbers to its name and every other value to "UNKNOWN"; and the signal
listener treats every received signal identically - its `switch` has
only a `default` branch, so the resulting launcher state and the
dispatched shutdown calls do not depend on which signal arrived (only
the logged text does). -/
theorem signalName_total_and_uniform (s sig2 now : Int) (srv : Launcher)
    (h1 : s ≠ SIGINT) (h2 : s ≠ SIGTERM) (h3 : s ≠ SIGKILL) (h4 : s ≠ SIGQUIT)
    (h5 : s ≠ SIGHUP) (h6 : s ≠ SIGUSR1) (h7 : s ≠ SIGUSR2) :
    signalName SIGINT = "SIGINT" ∧ signalName SIGTERM = "SIGTERM" ∧
    signalName SIGKILL = "SIGKILL" ∧ signalName SIGQUIT = "SIGQUIT" ∧
    signalName SIGHUP = "SIGHUP" ∧ signalName SIGUSR1 = "SIGUSR1" ∧
    signalName SIGUSR2 = "SIGUSR2" ∧ signalName s = "UNKNOWN" ∧
    (signalListenerAction s now srv).1 = (signalListenerAction sig2 now srv).1 ∧
    (signalListenerAction s now srv).2.2 = (signalListenerAction sig2 now srv).2.2 := by
  refine ⟨by decide, by decide, by decide, by decide, by decide, by decide, by decide,
    ?_, rfl, rfl⟩
  simp [signalName, h1, h2, h3, h4, h5, h6, h7]

/-- Witness for C10: the unsubscribed signal number 4 (SIGILL) maps to
"UNKNOWN" and triggers the same stop action as SIGTERM. -/
theorem signalName_total_and_uniform_witness :
    ((4 : Int) ≠ SIGINT) ∧ ((4 : Int) ≠ SIGTERM) ∧ ((4 : Int) ≠ SIGKILL) ∧
    ((4 : Int) ≠ SIGQUIT) ∧ ((4 : Int) ≠ SIGHUP) ∧ ((4 : Int) ≠ SIGUSR1) ∧
    ((4 : Int) ≠ SIGUSR2) ∧
    (signalName SIGINT = "SIGINT" ∧ signalName SIGTERM = "SIGTERM" ∧
      signalName SIGKILL = "SIGKILL" ∧ signalName SIGQUIT = "SIGQUIT" ∧
      signalName SIGHUP = "SIGHUP" ∧ signalName SIGUSR1 = "SIGUSR1" ∧
      signalName SIGUSR2 = "SIGUSR2" ∧ signalName 4 = "UNKNOWN" ∧
      (signalListenerAction 4 0 srvA).1 = (signalListenerAction SIGTERM 0 srvA).1 ∧
      (signalListenerAction 4 0 srvA).2.2 = (signalListenerAction SIGTERM 0 srvA).2.2) :=
  ⟨by decide, by decide, by decide, by decide, by decide, by decide, by decide,
   signalName_total_and_uniform 4 SIGTERM 0 srvA (by decide) (by decide) (by decide)
     (by decide) (by decide) (by decide) (by decide)⟩

end GoLauncher
